import Mathlib

/-!
Verification of the object-storage service and bucket-replication routine
of the catalog backend (`services/s3_service.py`, `products/views.py`,
`products/forms.py`).

The Python code is shallowly embedded: each S3 API call that the code can
make is represented by a script value describing the backend's response
(success, a botocore `ClientError`, or any other exception), and each
Python function is translated to a Lean function over those scripts.
Python exceptions are modelled with explicit result types (`PyResult`,
`Except`): a handler clause `except ClientError` in the source maps a
`clientError` outcome, a bare `except Exception` maps every outcome.
-/

namespace S3Spec

/-- Result of running a piece of Python code: a returned value, a raised
botocore `ClientError` (carrying the backend error code and message), or
any other raised exception. -/
inductive PyResult (α : Type) where
  | ret (a : α)
  | clientError (code msg : String)
  | exn (msg : String)
deriving DecidableEq, Repr

/-! ## Content-type inference (`S3Service._get_content_type`) -/

/-- Models Python's `str.lower()` on ASCII input: lowercase every
character. -/
def pyLower (s : String) : String :=
  ⟨s.data.map Char.toLower⟩

/-- The characters after the last `'.'` of a character list: this is
Python's `split('.')[-1]` whenever a dot is present. -/
def afterLastDot (l : List Char) : List Char :=
  (l.reverse.takeWhile (fun c => c ≠ '.')).reverse

/-- Embeds `S3Service._get_content_type`: lowercase the filename, take the
text after the last dot (empty when there is no dot), and look it up in
the fixed extension table, defaulting to `application/octet-stream`. -/
def get_content_type (filename : String) : String :=
  let extension : String :=
    if filename.data.contains '.' then ⟨afterLastDot (pyLower filename).data⟩ else ""
  match extension with
  | "jpg" => "image/jpeg"
  | "jpeg" => "image/jpeg"
  | "png" => "image/png"
  | "gif" => "image/gif"
  | "webp" => "image/webp"
  | "bmp" => "image/bmp"
  | _ => "application/octet-stream"

/-! ## Single-object upload (`S3Service.upload_file`) -/

/-- The `put-object` request that `upload_file` sends to the backend.
The content type is computed from `getattr(file, 'name', key)`: the
file object's `name` attribute when present, otherwise the key. -/
structure PutRequest where
  bucket : String
  key : String
  contentType : String
deriving DecidableEq, Repr

/-- Embeds the request construction inside `S3Service.upload_file`:
`ContentType = self._get_content_type(getattr(file, 'name', key))`,
where `file_name` is the optional `name` attribute of the file object. -/
def upload_request (bucket : String) (file_name : Option String) (key : String) : PutRequest :=
  { bucket := bucket, key := key, contentType := get_content_type (file_name.getD key) }

/-- Script for one call to `upload_file`: the outcome of `file.seek(0)`
and the outcome of `s3_client.upload_fileobj(...)`. -/
structure UploadCall where
  seek : PyResult Unit
  transmit : PyResult Unit
deriving DecidableEq, Repr

/-- Embeds `S3Service.upload_file`'s control flow: the body runs
`file.seek(0)` then `upload_fileobj` and returns `True`; the clause
`except ClientError` returns `False`, and the clause `except Exception`
also returns `False`, so no exception escapes. -/
def upload_file (call : UploadCall) : PyResult Bool :=
  match call.seek with
  | .ret _ =>
    match call.transmit with
    | .ret _ => .ret true
    | .clientError _ _ => .ret false
    | .exn _ => .ret false
  | .clientError _ _ => .ret false
  | .exn _ => .ret false

/-! ## Existence check (`S3Service.file_exists`) -/

/-- Outcome of the `head_object` probe issued by `file_exists`. -/
inductive HeadOutcome where
  | found
  | clientErr (code msg : String)
  | exn (msg : String)
deriving DecidableEq, Repr

/-- Embeds `S3Service.file_exists`: `head_object` succeeding returns
`True`; the only handler is `except ClientError`, which returns `False`;
any other exception raised by the call propagates to the caller. -/
def file_exists (probe : HeadOutcome) : PyResult Bool :=
  match probe with
  | .found => .ret true
  | .clientErr _ _ => .ret false
  | .exn m => .exn m

/-! ## Client construction (`S3Service.__init__`, `_test_connection`) -/

/-- State of the configured credential pair. `missing` and `invalid` are
the states in which botocore cannot produce a usable signer and raises
`NoCredentialsError` (the exception `__init__` handles); `valid` is a
usable pair (a pair that is merely denied by the bucket shows up as a
`ClientError` on the probe instead, see `BucketProbe`). -/
inductive CredState where
  | missing
  | invalid
  | valid
deriving DecidableEq, Repr

/-- Outcome of the `head_bucket` reachability probe in `_test_connection`. -/
inductive BucketProbe where
  | reachable
  | notFound
  | accessDenied
  | otherClientErr (msg : String)
  | connectionErr (msg : String)
deriving DecidableEq, Repr

inductive LogLevel where
  | info
  | warning
  | error
deriving DecidableEq, Repr

/-- Embeds `S3Service._test_connection`: every probe outcome is only
logged (`404` and `403` get dedicated warnings, any other `ClientError`
and any other exception get generic warnings); nothing is raised. -/
def test_connection (bucket : String) (probe : BucketProbe) : List (LogLevel × String) :=
  match probe with
  | .reachable => [(.info, "Successfully connected to S3 bucket: " ++ bucket)]
  | .notFound => [(.warning, "Bucket " ++ bucket ++ " does not exist")]
  | .accessDenied => [(.warning, "Access denied to bucket " ++ bucket ++ " - check permissions")]
  | .otherClientErr e => [(.warning, "Error accessing bucket " ++ bucket ++ ": " ++ e)]
  | .connectionErr e => [(.warning, "Could not test S3 connection: " ++ e)]

/-- The constructed client: its only state is the configured bucket. -/
structure S3Client where
  bucket_name : String
deriving DecidableEq, Repr

/-- Embeds `S3Service.__init__`: building the boto3 client with an absent
or unusable credential pair raises `NoCredentialsError`, which the
constructor converts into a hard failure (`raise Exception("AWS
credentials not configured properly")`); with usable credentials the
constructor runs `_test_connection` (which never raises) and returns the
client together with the connection log. -/
def s3_init (creds : CredState) (bucket : String) (probe : BucketProbe) :
    PyResult (S3Client × List (LogLevel × String)) :=
  match creds with
  | .missing => .exn "AWS credentials not configured properly"
  | .invalid => .exn "AWS credentials not configured properly"
  | .valid => .ret ({ bucket_name := bucket }, test_connection bucket probe)

/-! ## Bucket replication (`S3Service.copy_all_files`) -/

/-- Backend outcome of one `copy_object` call: success, a raised
`ClientError` (the only exception the per-object handler catches), or
any other raised exception (which only the run-level `except Exception`
handler sees). -/
inductive CopyOutcome where
  | ok
  | clientErr (msg : String)
  | otherErr (msg : String)
deriving DecidableEq, Repr

/-- One fetch from the `list_objects_v2` paginator: a page (whose
`Contents` entry may be absent, carrying otherwise the listed keys with
their copy outcomes), or a listing failure — a `ClientError` or any
other exception raised while fetching the page. -/
inductive PageFetch where
  | page (contents : Option (List (String × CopyOutcome)))
  | listClientErr (msg : String)
  | listOtherErr (msg : String)
deriving DecidableEq, Repr

/-- A `copy_object` request as issued by `copy_all_files`. -/
structure CopyReq where
  sourceBucket : String
  targetBucket : String
  key : String
  acl : String
deriving DecidableEq, Repr

/-- The arguments `copy_all_files` passes to `copy_object`: same key in
source and target, and `ACL='public-read'` on every call. -/
def mkCopyRequest (source_bucket target_bucket key : String) : CopyReq :=
  { sourceBucket := source_bucket, targetBucket := target_bucket, key := key
    acl := "public-read" }

/-- The `results` dict built by `copy_all_files`. -/
structure Results where
  success_count : Nat
  failed_files : List (String × String)
  total_processed : Nat
deriving DecidableEq, Repr

/-- Embeds the inner loop of `copy_all_files` over one page's `Contents`:
`total_processed` is incremented for every object; a successful copy
increments `success_count`; a `ClientError` appends `(key, error)` to
`failed_files` and the loop continues; any other exception propagates to
the run-level handler, which re-raises `Exception("Backup failed: ...")`
so the partly-built dict is discarded. -/
def copyObjectsRes (objs : List (String × CopyOutcome)) (results : Results) :
    Except String Results :=
  match objs with
  | [] => .ok results
  | (_, .ok) :: rest =>
    copyObjectsRes rest
      { results with
        total_processed := results.total_processed + 1
        success_count := results.success_count + 1 }
  | (key, .clientErr e) :: rest =>
    copyObjectsRes rest
      { results with
        total_processed := results.total_processed + 1
        failed_files := results.failed_files ++ [(key, e)] }
  | (_, .otherErr e) :: _ => .error ("Backup failed: " ++ e)

/-- The `copy_object` requests issued while running the inner loop of
`copy_all_files` over one page: one request per attempted object; after
a non-`ClientError` failure no further object is attempted. -/
def copyObjectsReqs (source_bucket target_bucket : String)
    (objs : List (String × CopyOutcome)) : List CopyReq :=
  match objs with
  | [] => []
  | (key, .ok) :: rest =>
    mkCopyRequest source_bucket target_bucket key :: copyObjectsReqs source_bucket target_bucket rest
  | (key, .clientErr _) :: rest =>
    mkCopyRequest source_bucket target_bucket key :: copyObjectsReqs source_bucket target_bucket rest
  | (key, .otherErr _) :: _ => [mkCopyRequest source_bucket target_bucket key]

/-- Embeds the page loop of `copy_all_files`: a page with no `Contents`
contributes nothing (`continue`); a fetched page is processed by the
inner loop; a `ClientError` raised by the paginator is re-raised as
`Exception("Cannot access source bucket: ...")`, any other exception as
`Exception("Backup failed: ...")` — in both cases no report is returned. -/
def copyPagesRes (pages : List PageFetch) (results : Results) : Except String Results :=
  match pages with
  | [] => .ok results
  | .listClientErr e :: _ => .error ("Cannot access source bucket: " ++ e)
  | .listOtherErr e :: _ => .error ("Backup failed: " ++ e)
  | .page contents :: rest =>
    match copyObjectsRes (contents.getD []) results with
    | .ok r1 => copyPagesRes rest r1
    | .error e => .error e

/-- The `copy_object` requests issued across the whole page loop. -/
def copyPagesReqs (source_bucket target_bucket : String) (pages : List PageFetch)
    (results : Results) : List CopyReq :=
  match pages with
  | [] => []
  | .listClientErr _ :: _ => []
  | .listOtherErr _ :: _ => []
  | .page contents :: rest =>
    match copyObjectsRes (contents.getD []) results with
    | .ok r1 =>
      copyObjectsReqs source_bucket target_bucket (contents.getD []) ++
        copyPagesReqs source_bucket target_bucket rest r1
    | .error _ => copyObjectsReqs source_bucket target_bucket (contents.getD [])

/-- The initial `results` dict of `copy_all_files`. -/
def initResults : Results := { success_count := 0, failed_files := [], total_processed := 0 }

/-- Embeds `S3Service.copy_all_files` on a listing script `pages`:
returns the Python result (the completed report, or the message of the
raised exception) paired with the trace of `copy_object` requests the
run issued. -/
def copy_all_files (source_bucket target_bucket : String) (pages : List PageFetch) :
    Except String Results × List CopyReq :=
  (copyPagesRes pages initResults, copyPagesReqs source_bucket target_bucket pages initResults)

/-! ## Backup trigger view (`products.views.admin_backup`) -/

/-- The `Config` model row: `bucket_name` (default `'jfm02'`) and
`backup_bucket` (blank allowed — the empty string means unset). -/
structure Config where
  bucket_name : String
  backup_bucket : String
deriving DecidableEq, Repr

/-- The JSON response shapes of `admin_backup`: `failure` is a
`success: False` payload with its error text; `completed` is a
`success: True` payload with its optional `warning` flag, message, and
the report. -/
inductive BackupResponse where
  | failure (errorMsg : String)
  | completed (warning : Bool) (message : String) (results : Results)
deriving DecidableEq, Repr

/-- Embeds the POST branch of `products.views.admin_backup` (client
construction assumed to succeed; its failure modes are `s3_init`'s).
The returned boolean records whether `copy_all_files` — and hence the
listing of the source bucket — was invoked. The view rejects a missing
`Config` row and an unset (falsy) `backup_bucket` before replicating; it
performs no comparison of `bucket_name` with `backup_bucket`. An
exception from `copy_all_files` is caught and reported as a
`success: False` payload. -/
def admin_backup (config : Option Config) (pages : List PageFetch) :
    BackupResponse × Bool :=
  match config with
  | none => (.failure "No se encontró configuración del sistema", false)
  | some c =>
    if c.backup_bucket = "" then
      (.failure "No se ha configurado un bucket de backup", false)
    else
      match (copy_all_files c.bucket_name c.backup_bucket pages).1 with
      | .error e => (.failure ("Error durante el backup: " ++ e), true)
      | .ok r =>
        if r.failed_files.isEmpty then
          (.completed false
            ("Backup completado exitosamente: " ++ toString r.success_count ++
              " archivos copiados") r, true)
        else
          (.completed true
            ("Backup completado con advertencias: " ++ toString r.success_count ++ "/" ++
              toString r.total_processed ++ " archivos copiados") r, true)

/-! ## Bucket-name validation (`products.forms.ConfigForm.clean_bucket_name`) -/

/-- Models Python's `str.replace(c, '')` for a one-character pattern:
every occurrence of `c` is removed. -/
def removeChar (c : Char) (s : String) : String :=
  ⟨s.data.filter (fun x => x ≠ c)⟩

/-- Models Python's `str.isalnum()` restricted to ASCII input: true on a
non-empty string all of whose characters are alphanumeric. -/
def pyIsAlnum (s : String) : Bool :=
  !s.data.isEmpty && s.data.all Char.isAlphanum

/-- Embeds `ConfigForm.clean_bucket_name`: reject a falsy (empty) name;
reject unless the name with `-` and `.` removed is alphanumeric; reject
a length outside 3..63; otherwise accept, returning the lowercased
name. -/
def clean_bucket_name (bucket_name : String) : Except String String :=
  if bucket_name.data.isEmpty then
    .error "El nombre del bucket principal es obligatorio."
  else if !pyIsAlnum (removeChar '.' (removeChar '-' bucket_name)) then
    .error "El nombre del bucket solo puede contener letras, números, guiones y puntos."
  else if bucket_name.length < 3 ∨ 63 < bucket_name.length then
    .error "El nombre del bucket debe tener entre 3 y 63 caracteres."
  else
    .ok (pyLower bucket_name)

/-! ## Derived notions about replication scripts -/

/-- Number of objects in a listing whose copy succeeds. -/
def okCount : List (String × CopyOutcome) → Nat
  | [] => 0
  | (_, .ok) :: rest => okCount rest + 1
  | (_, .clientErr _) :: rest => okCount rest
  | (_, .otherErr _) :: rest => okCount rest

/-- The `(key, error)` pairs of the objects whose copy raises a
`ClientError`, in listing order. -/
def failuresOf : List (String × CopyOutcome) → List (String × String)
  | [] => []
  | (_, .ok) :: rest => failuresOf rest
  | (key, .clientErr e) :: rest => (key, e) :: failuresOf rest
  | (_, .otherErr _) :: rest => failuresOf rest

/-- A listing is benign when no copy raises anything but a `ClientError`. -/
def benign : List (String × CopyOutcome) → Bool
  | [] => true
  | (_, .otherErr _) :: _ => false
  | _ :: rest => benign rest

/-- A script is made of good pages when every fetch returns a page and
every copy outcome on it is benign. -/
def goodPages : List PageFetch → Bool
  | [] => true
  | .page contents :: rest => benign (contents.getD []) && goodPages rest
  | .listClientErr _ :: _ => false
  | .listOtherErr _ :: _ => false

/-- All objects listed by a script, in order (listing failures list
nothing). -/
def allObjs : List PageFetch → List (String × CopyOutcome)
  | [] => []
  | .page contents :: rest => contents.getD [] ++ allObjs rest
  | .listClientErr _ :: rest => allObjs rest
  | .listOtherErr _ :: rest => allObjs rest

/-- The report reached from `r` after processing the listing `objs`. -/
def addObjs (r : Results) (objs : List (String × CopyOutcome)) : Results :=
  { success_count := r.success_count + okCount objs
    failed_files := r.failed_files ++ failuresOf objs
    total_processed := r.total_processed + objs.length }

lemma addObjs_nil (r : Results) : addObjs r [] = r := by
  simp [addObjs, okCount, failuresOf]

lemma okCount_append (a b : List (String × CopyOutcome)) :
    okCount (a ++ b) = okCount a + okCount b := by
  induction a with
  | nil => simp [okCount]
  | cons hd tl ih =>
    obtain ⟨k, out⟩ := hd
    cases out with
    | ok =>
      simp [okCount, ih]
      omega
    | clientErr e => simp [okCount, ih]
    | otherErr e => simp [okCount, ih]

lemma failuresOf_append (a b : List (String × CopyOutcome)) :
    failuresOf (a ++ b) = failuresOf a ++ failuresOf b := by
  induction a with
  | nil => simp [failuresOf]
  | cons hd tl ih =>
    obtain ⟨k, out⟩ := hd
    cases out <;> simp [failuresOf, ih]

lemma addObjs_append (r : Results) (a b : List (String × CopyOutcome)) :
    addObjs (addObjs r a) b = addObjs r (a ++ b) := by
  simp [addObjs, okCount_append, failuresOf_append, Nat.add_assoc]

/-- On a benign listing the inner loop completes, producing exactly the
report `addObjs r objs`. -/
lemma copyObjectsRes_benign (objs : List (String × CopyOutcome)) (r : Results)
    (hb : benign objs = true) :
    copyObjectsRes objs r = Except.ok (addObjs r objs) := by
  induction objs generalizing r with
  | nil => simp [copyObjectsRes, addObjs_nil]
  | cons hd tl ih =>
    obtain ⟨k, out⟩ := hd
    cases out with
    | ok =>
      rw [copyObjectsRes, ih _ (by simpa [benign] using hb)]
      simp only [addObjs, okCount, failuresOf, List.length_cons]
      congr 1
      simp
      omega
    | clientErr e =>
      rw [copyObjectsRes, ih _ (by simpa [benign] using hb)]
      simp only [addObjs, okCount, failuresOf, List.length_cons]
      congr 1
      simp
      omega
    | otherErr e => simp [benign] at hb

/-- Processing a good-pages prefix never aborts: the page loop carries
the accumulated report into the remaining fetches. -/
lemma copyPagesRes_append (good rest : List PageFetch) (r : Results)
    (hp : goodPages good = true) :
    copyPagesRes (good ++ rest) r = copyPagesRes rest (addObjs r (allObjs good)) := by
  induction good generalizing r with
  | nil => simp [addObjs_nil, allObjs]
  | cons hd tl ih =>
    cases hd with
    | page contents =>
      have hb : benign (contents.getD []) = true := by
        simp [goodPages] at hp
        exact hp.1
      have htl : goodPages tl = true := by
        simp [goodPages] at hp
        exact hp.2
      rw [List.cons_append, copyPagesRes, copyObjectsRes_benign _ _ hb]
      simp only [allObjs]
      show copyPagesRes (tl ++ rest) (addObjs r (contents.getD [])) =
        copyPagesRes rest (addObjs r (contents.getD [] ++ allObjs tl))
      rw [ih _ htl, addObjs_append]
    | listClientErr e => simp [goodPages] at hp
    | listOtherErr e => simp [goodPages] at hp

/-- On a script of good pages the whole run completes with exactly the
report `addObjs r (allObjs pages)`. -/
lemma copyPagesRes_good (pages : List PageFetch) (r : Results)
    (hp : goodPages pages = true) :
    copyPagesRes pages r = Except.ok (addObjs r (allObjs pages)) := by
  have h := copyPagesRes_append pages [] r hp
  simpa [copyPagesRes] using h

/-- The report invariant is preserved by the inner loop. -/
lemma copyObjectsRes_invariant (objs : List (String × CopyOutcome)) (r r1 : Results)
    (h : copyObjectsRes objs r = Except.ok r1)
    (hr : r.total_processed = r.success_count + r.failed_files.length) :
    r1.total_processed = r1.success_count + r1.failed_files.length := by
  induction objs generalizing r with
  | nil =>
    rw [copyObjectsRes] at h
    cases h
    exact hr
  | cons hd tl ih =>
    obtain ⟨k, out⟩ := hd
    cases out with
    | ok =>
      rw [copyObjectsRes] at h
      refine ih _ h ?_
      simp
      omega
    | clientErr e =>
      rw [copyObjectsRes] at h
      refine ih _ h ?_
      simp
      omega
    | otherErr e =>
      rw [copyObjectsRes] at h
      cases h

/-- The report invariant is preserved by the page loop. -/
lemma copyPagesRes_invariant (pages : List PageFetch) (r r1 : Results)
    (h : copyPagesRes pages r = Except.ok r1)
    (hr : r.total_processed = r.success_count + r.failed_files.length) :
    r1.total_processed = r1.success_count + r1.failed_files.length := by
  induction pages generalizing r with
  | nil =>
    rw [copyPagesRes] at h
    cases h
    exact hr
  | cons hd tl ih =>
    cases hd with
    | page contents =>
      rw [copyPagesRes] at h
      cases hstep : copyObjectsRes (contents.getD []) r with
      | ok rmid =>
        rw [hstep] at h
        exact ih _ h (copyObjectsRes_invariant _ _ _ hstep hr)
      | error e =>
        rw [hstep] at h
        cases h
    | listClientErr e =>
      rw [copyPagesRes] at h
      cases h
    | listOtherErr e =>
      rw [copyPagesRes] at h
      cases h

/-- A listing failure anywhere in the script makes the whole run raise. -/
lemma copyPagesRes_listing_failure (pages : List PageFetch) (r : Results) (e : String)
    (h : PageFetch.listClientErr e ∈ pages ∨ PageFetch.listOtherErr e ∈ pages) :
    ∃ msg, copyPagesRes pages r = Except.error msg := by
  induction pages generalizing r with
  | nil => simp at h
  | cons hd tl ih =>
    cases hd with
    | page contents =>
      have htl : PageFetch.listClientErr e ∈ tl ∨ PageFetch.listOtherErr e ∈ tl := by
        rcases h with h | h <;> [left; right] <;> simpa using h
      rw [copyPagesRes]
      cases hstep : copyObjectsRes (contents.getD []) r with
      | ok rmid => exact ih _ htl
      | error msg => exact ⟨msg, rfl⟩
    | listClientErr e1 => exact ⟨"Cannot access source bucket: " ++ e1, by rw [copyPagesRes]⟩
    | listOtherErr e1 => exact ⟨"Backup failed: " ++ e1, by rw [copyPagesRes]⟩

/-- Every copy request issued by the page loop carries the configured
source and target buckets and the public-read ACL. -/
lemma copyObjectsReqs_shape (source_bucket target_bucket : String)
    (objs : List (String × CopyOutcome)) (q : CopyReq)
    (hq : q ∈ copyObjectsReqs source_bucket target_bucket objs) :
    q.sourceBucket = source_bucket ∧ q.targetBucket = target_bucket ∧
      q.acl = "public-read" := by
  induction objs with
  | nil => simp [copyObjectsReqs] at hq
  | cons hd tl ih =>
    obtain ⟨k, out⟩ := hd
    cases out with
    | ok =>
      rw [copyObjectsReqs] at hq
      rcases List.mem_cons.mp hq with h | h
      · subst h
        exact ⟨rfl, rfl, rfl⟩
      · exact ih h
    | clientErr e =>
      rw [copyObjectsReqs] at hq
      rcases List.mem_cons.mp hq with h | h
      · subst h
        exact ⟨rfl, rfl, rfl⟩
      · exact ih h
    | otherErr e =>
      rw [copyObjectsReqs] at hq
      rcases List.mem_singleton.mp hq with h
      subst h
      exact ⟨rfl, rfl, rfl⟩

lemma copyPagesReqs_shape (source_bucket target_bucket : String)
    (pages : List PageFetch) (r : Results) (q : CopyReq)
    (hq : q ∈ copyPagesReqs source_bucket target_bucket pages r) :
    q.sourceBucket = source_bucket ∧ q.targetBucket = target_bucket ∧
      q.acl = "public-read" := by
  induction pages generalizing r with
  | nil => simp [copyPagesReqs] at hq
  | cons hd tl ih =>
    cases hd with
    | page contents =>
      rw [copyPagesReqs] at hq
      cases hstep : copyObjectsRes (contents.getD []) r with
      | ok rmid =>
        rw [hstep] at hq
        rcases List.mem_append.mp hq with h | h
        · exact copyObjectsReqs_shape _ _ _ _ h
        · exact ih _ h
      | error e =>
        rw [hstep] at hq
        exact copyObjectsReqs_shape _ _ _ _ hq
    | listClientErr e => simp [copyPagesReqs] at hq
    | listOtherErr e => simp [copyPagesReqs] at hq

/-- Characterization of accepted bucket names: acceptance forces every
character of the submitted name to be alphanumeric, a hyphen, or a dot. -/
lemma clean_bucket_name_charset (s t : String) (h : clean_bucket_name s = Except.ok t) :
    3 ≤ s.length ∧ s.length ≤ 63 ∧ ∀ c ∈ s.data, c.isAlphanum ∨ c = '-' ∨ c = '.' := by
  rw [clean_bucket_name] at h
  split_ifs at h with h1 h2 h3
  all_goals try simp at h
  refine ⟨by omega, by omega, ?_⟩
  intro c hc
  by_cases hd : c = '-'
  · exact Or.inr (Or.inl hd)
  by_cases he : c = '.'
  · exact Or.inr (Or.inr he)
  left
  simp only [Bool.not_eq_true] at h2
  have hall : ∀ x ∈ (s.data.filter (fun x => x ≠ '-')).filter (fun x => x ≠ '.'),
      x.isAlphanum = true := by
    have h2' : pyIsAlnum (removeChar '.' (removeChar '-' s)) = true := by
      revert h2
      cases pyIsAlnum (removeChar '.' (removeChar '-' s)) <;> simp
    simp only [pyIsAlnum, removeChar, Bool.and_eq_true, List.all_eq_true] at h2'
    exact h2'.2
  refine hall c (List.mem_filter.mpr ⟨List.mem_filter.mpr ⟨hc, ?_⟩, ?_⟩) <;>
    simp [hd, he]

/-! ## Claims -/

/-- Claim C1: every replication run that completes and returns a report
satisfies `totalProcessed == successCount + len(failedItems)`, no matter
how many per-object copies failed along the way. -/
theorem C1_report_invariant (src tgt : String) (pages : List PageFetch) (r : Results)
    (h : (copy_all_files src tgt pages).1 = Except.ok r) :
    r.total_processed = r.success_count + r.failed_files.length :=
  copyPagesRes_invariant pages initResults r h rfl

theorem C1_report_invariant_witness :
    (Results.mk 2 [("b", "boom")] 3).total_processed =
      (Results.mk 2 [("b", "boom")] 3).success_count +
        (Results.mk 2 [("b", "boom")] 3).failed_files.length :=
  C1_report_invariant "s" "t"
    [PageFetch.page (some [("a", CopyOutcome.ok), ("b", CopyOutcome.clientErr "boom")]),
      PageFetch.page none, PageFetch.page (some [("c", CopyOutcome.ok)])]
    (Results.mk 2 [("b", "boom")] 3) rfl

/-- Claim C2 counterexample: with a configuration whose backup bucket
equals the primary bucket (both `"jfm02"`), the backup trigger does not
fail with a configuration error — it invokes the listing (second
component `true`) and returns a success payload. -/
theorem C2_counterexample :
    admin_backup (some (Config.mk "jfm02" "jfm02"))
        [PageFetch.page (some [("k", CopyOutcome.ok)])] =
      (BackupResponse.completed false "Backup completado exitosamente: 1 archivos copiados"
        (Results.mk 1 [] 1), true) := rfl

/-- Claim C2 (amended): if no configuration row exists, or the backup
bucket is unset, the backup trigger fails fast with a configuration
error and the listing is never invoked; equality of source and target
buckets is not checked on the replication path. -/
theorem C2_amended (pages : List PageFetch) (name : String) :
    admin_backup none pages =
      (BackupResponse.failure "No se encontró configuración del sistema", false) ∧
    admin_backup (some (Config.mk name "")) pages =
      (BackupResponse.failure "No se ha configurado un bucket de backup", false) :=
  ⟨rfl, rfl⟩

theorem C2_amended_witness :
    admin_backup none [] =
      (BackupResponse.failure "No se encontró configuración del sistema", false) ∧
    admin_backup (some (Config.mk "jfm02" "")) [] =
      (BackupResponse.failure "No se ha configurado un bucket de backup", false) :=
  C2_amended [] "jfm02"

/-- Claim C3: constructing the client with an absent or unusable
credential pair is a hard failure producing no client, while with valid
credentials a missing (404), access-denied (403) or unprobeable bucket
only logs a warning and construction succeeds. -/
theorem C3_init_failure_modes :
    (∀ bucket probe, s3_init CredState.missing bucket probe =
      PyResult.exn "AWS credentials not configured properly") ∧
    (∀ bucket probe, s3_init CredState.invalid bucket probe =
      PyResult.exn "AWS credentials not configured properly") ∧
    (∀ bucket, s3_init CredState.valid bucket BucketProbe.notFound =
      PyResult.ret (S3Client.mk bucket,
        [(LogLevel.warning, "Bucket " ++ bucket ++ " does not exist")])) ∧
    (∀ bucket, s3_init CredState.valid bucket BucketProbe.accessDenied =
      PyResult.ret (S3Client.mk bucket,
        [(LogLevel.warning, "Access denied to bucket " ++ bucket ++ " - check permissions")])) ∧
    (∀ bucket msg, s3_init CredState.valid bucket (BucketProbe.connectionErr msg) =
      PyResult.ret (S3Client.mk bucket,
        [(LogLevel.warning, "Could not test S3 connection: " ++ msg)])) :=
  ⟨fun _ _ => rfl, fun _ _ => rfl, fun _ => rfl, fun _ => rfl, fun _ _ => rfl⟩

/-- Claim C4 counterexample: a per-object copy failure that raises
something other than a `ClientError` (here a connection error) aborts
the whole run — the key is not appended to `failedItems` and no report
is produced. -/
theorem C4_counterexample :
    (copy_all_files "src" "tgt"
        [PageFetch.page (some [("k", CopyOutcome.otherErr "EndpointConnectionError")])]).1 =
      Except.error "Backup failed: EndpointConnectionError" := rfl

/-- Claim C4 (amended): in a replication run in which every per-object
copy failure raises a `ClientError`, each failing object is recorded as
`(key, error)` in `failedItems`, in listing order, and the run continues
to completion over all pages; per-object failures of any other exception
class instead abort the run. -/
theorem C4_amended (src tgt : String) (pages : List PageFetch)
    (hp : goodPages pages = true) :
    (copy_all_files src tgt pages).1 =
      Except.ok (Results.mk (okCount (allObjs pages)) (failuresOf (allObjs pages))
        (allObjs pages).length) := by
  have h := copyPagesRes_good pages initResults hp
  simpa [copy_all_files, initResults, addObjs] using h

theorem C4_amended_witness :
    (copy_all_files "s" "t"
        [PageFetch.page (some [("a", CopyOutcome.ok), ("b", CopyOutcome.clientErr "AccessDenied")])]).1 =
      Except.ok (Results.mk
        (okCount (allObjs [PageFetch.page
          (some [("a", CopyOutcome.ok), ("b", CopyOutcome.clientErr "AccessDenied")])]))
        (failuresOf (allObjs [PageFetch.page
          (some [("a", CopyOutcome.ok), ("b", CopyOutcome.clientErr "AccessDenied")])]))
        (allObjs [PageFetch.page
          (some [("a", CopyOutcome.ok), ("b", CopyOutcome.clientErr "AccessDenied")])]).length) :=
  C4_amended "s" "t"
    [PageFetch.page (some [("a", CopyOutcome.ok), ("b", CopyOutcome.clientErr "AccessDenied")])]
    (by decide)

/-- Claim C5: if fetching a listing page fails — whether with a
`ClientError` or any other exception — the whole replication run raises
an error to the caller and no partial report is returned. -/
theorem C5_listing_failure_fatal (src tgt : String) (pages : List PageFetch) (e : String)
    (h : PageFetch.listClientErr e ∈ pages ∨ PageFetch.listOtherErr e ∈ pages) :
    ∃ msg, (copy_all_files src tgt pages).1 = Except.error msg :=
  copyPagesRes_listing_failure pages initResults e h

theorem C5_listing_failure_fatal_witness :
    ∃ msg, (copy_all_files "s" "t" [PageFetch.listClientErr "AccessDenied"]).1 =
      Except.error msg :=
  C5_listing_failure_fatal "s" "t" [PageFetch.listClientErr "AccessDenied"] "AccessDenied"
    (Or.inl (List.mem_singleton.mpr rfl))

/-- Claim C6: `upload_file` never lets an exception escape — every call
returns a boolean value; both steps succeeding yields `True`, and a
`ClientError` or any other exception during the rewind or the
transmission yields `False` as a value. -/
theorem C6_upload_outcome :
    (∀ call : UploadCall, ∃ b, upload_file call = PyResult.ret b) ∧
    upload_file (UploadCall.mk (PyResult.ret ()) (PyResult.ret ())) = PyResult.ret true ∧
    (∀ s code msg,
      upload_file (UploadCall.mk s (PyResult.clientError code msg)) = PyResult.ret false) ∧
    (∀ s msg, upload_file (UploadCall.mk s (PyResult.exn msg)) = PyResult.ret false) := by
  refine ⟨?_, rfl, ?_, ?_⟩
  · intro call
    obtain ⟨s, t⟩ := call
    cases s <;> cases t <;> exact ⟨_, rfl⟩
  · intro s code msg
    cases s <;> rfl
  · intro s msg
    cases s <;> rfl

/-- Claim C7 counterexample: when the uploaded file object carries a
`name` attribute, the content type is inferred from that name and not
from the key — a file named `"a.gif"` uploaded under key `"x.png"` is
sent as `image/gif`, not `image/png`. -/
theorem C7_counterexample :
    (upload_request "jfm02" (some "a.gif") "x.png").contentType = "image/gif" ∧
    (upload_request "jfm02" (some "a.gif") "x.png").contentType ≠ "image/png" :=
  ⟨rfl, by decide⟩

/-- Claim C7 (amended): upload infers the content type from the file
object's `name` attribute when present and from the key otherwise, via
the fixed lookup table — jpg/jpeg to image/jpeg, png to image/png, gif
to image/gif, webp to image/webp, bmp to image/bmp, anything else to
application/octet-stream; in particular a nameless stream under key
`"x.png"` is sent as `image/png` and under `"x.unknownext"` as
`application/octet-stream`. -/
theorem C7_amended :
    (∀ bucket key, (upload_request bucket none key).contentType = get_content_type key) ∧
    (∀ bucket n key, (upload_request bucket (some n) key).contentType = get_content_type n) ∧
    (upload_request "jfm02" none "x.png").contentType = "image/png" ∧
    (upload_request "jfm02" none "x.unknownext").contentType = "application/octet-stream" ∧
    get_content_type "a.jpg" = "image/jpeg" ∧
    get_content_type "a.jpeg" = "image/jpeg" ∧
    get_content_type "a.png" = "image/png" ∧
    get_content_type "a.gif" = "image/gif" ∧
    get_content_type "a.webp" = "image/webp" ∧
    get_content_type "a.bmp" = "image/bmp" ∧
    get_content_type "a.txt" = "application/octet-stream" ∧
    get_content_type "archivo" = "application/octet-stream" :=
  ⟨fun _ _ => rfl, fun _ _ _ => rfl, rfl, rfl, rfl, rfl, rfl, rfl, rfl, rfl, rfl, rfl⟩

/-- Claim C8 counterexample: a probe failure outside the `ClientError`
class (here a connection error) is not converted to `False` — the
exception escapes the existence check to the caller. -/
theorem C8_counterexample :
    file_exists (HeadOutcome.exn "EndpointConnectionError") =
      PyResult.exn "EndpointConnectionError" ∧
    file_exists (HeadOutcome.exn "EndpointConnectionError") ≠ PyResult.ret false :=
  ⟨rfl, by decide⟩

/-- Claim C8 (amended): the existence check returns `True` when the
probe succeeds and `False` on any backend `ClientError` (including "not
found"); an exception of any other class raised by the probe is not
caught and propagates to the caller. -/
theorem C8_amended :
    file_exists HeadOutcome.found = PyResult.ret true ∧
    (∀ code msg, file_exists (HeadOutcome.clientErr code msg) = PyResult.ret false) ∧
    (∀ msg, file_exists (HeadOutcome.exn msg) = PyResult.exn msg) :=
  ⟨rfl, fun _ _ => rfl, fun _ => rfl⟩

/-- Claim C9: the bucket-name validator accepts `"my-bucket.01"` and
rejects `"ab"` (too short) and `"My_Bucket"` (invalid character `_`);
and every accepted name has between 3 and 63 characters, all of them
letters, digits, hyphens or dots. -/
theorem C9_bucket_validator :
    clean_bucket_name "my-bucket.01" = Except.ok "my-bucket.01" ∧
    clean_bucket_name "ab" =
      Except.error "El nombre del bucket debe tener entre 3 y 63 caracteres." ∧
    clean_bucket_name "My_Bucket" =
      Except.error "El nombre del bucket solo puede contener letras, números, guiones y puntos." ∧
    ∀ s t, clean_bucket_name s = Except.ok t →
      3 ≤ s.length ∧ s.length ≤ 63 ∧ ∀ c ∈ s.data, c.isAlphanum ∨ c = '-' ∨ c = '.' :=
  ⟨by rfl, by rfl, by rfl, clean_bucket_name_charset⟩

theorem C9_bucket_validator_witness :
    3 ≤ ("my-bucket.01" : String).length ∧ ("my-bucket.01" : String).length ≤ 63 ∧
      ∀ c ∈ ("my-bucket.01" : String).data, c.isAlphanum ∨ c = '-' ∨ c = '.' :=
  C9_bucket_validator.2.2.2 "my-bucket.01" "my-bucket.01" (by rfl)

/-- Claim C10: every `copy_object` request issued by a replication run
carries the `public-read` ACL and addresses the configured target
bucket, so every object the run copies is written publicly readable
regardless of the source object's access settings. -/
theorem C10_public_read (src tgt : String) (pages : List PageFetch) (q : CopyReq)
    (hq : q ∈ (copy_all_files src tgt pages).2) :
    q.acl = "public-read" ∧ q.targetBucket = tgt :=
  ⟨(copyPagesReqs_shape src tgt pages initResults q hq).2.2,
    (copyPagesReqs_shape src tgt pages initResults q hq).2.1⟩

theorem C10_public_read_witness :
    (mkCopyRequest "s" "t" "k").acl = "public-read" ∧
      (mkCopyRequest "s" "t" "k").targetBucket = "t" :=
  C10_public_read "s" "t" [PageFetch.page (some [("k", CopyOutcome.ok)])]
    (mkCopyRequest "s" "t" "k") (by decide)

end S3Spec
